import Mathlib

/-!
Shallow embedding of the Vaulto-Swap repository pieces under verification:

* `src/lib/utils/tokenListValidation.ts` — token-list validation, bounded
  retry with fixed backoff, and primary/fallback URL selection;
* the client cache utility (TTL cache plus cache-key helpers);
* the data-fetch routine of the token-details client component and its
  chart-symbol derivation;
* the `stock-pct-change` HTTP GET route.

JavaScript numbers are modelled by `JNum` (an exact value or NaN); JSON
payloads by the `Json` inductive; every fallible external call (network
fetch, JSON parse, upstream SDK) is an explicit `Except`/oracle parameter,
so each embedded function is a pure, executable Lean definition.
-/

/-- A JavaScript number: either NaN or an exact value (modelled by `Int`;
the claims under study only use comparisons with zero and truthiness, which
are exact). -/
inductive JNum where
  | nan
  | val (x : Int)
deriving Repr, DecidableEq

/-- Truthiness of a JS number: `0` and `NaN` are falsy. -/
def JNum.falsy : JNum → Bool
  | .nan => true
  | .val x => x == 0

/-- The JS comparison `n > 0` (false for NaN). -/
def JNum.gt0 : JNum → Bool
  | .nan => false
  | .val x => 0 < x

/-- The JS check `isNaN n`. -/
def JNum.isNaN : JNum → Bool
  | .nan => true
  | .val _ => false

/-- JS string-falsiness chaining `a || b` for strings (empty string is
falsy; `null`/`undefined` strings are modelled as `""`). -/
def strOr (a b : String) : String := if a = "" then b else a

/-- JS `String.prototype.toUpperCase` (character-wise uppercasing). -/
def jsToUpper (s : String) : String := ⟨s.data.map Char.toUpper⟩

/-- JS `String.prototype.endsWith`. -/
def jsEndsWith (s suffix : String) : Bool := suffix.data.isSuffixOf s.data

/-- JS `String.prototype.slice(0, -n)`: drop the last `n` characters. -/
def jsDropRight (s : String) (n : Nat) : String := ⟨s.data.take (s.data.length - n)⟩

/-- JS `String.prototype.length`. -/
def jsLength (s : String) : Nat := s.data.length

/-- Whitespace recognized by the model of `String.prototype.trim`. -/
def isJsSpace (c : Char) : Bool := c == ' ' || c == '\t' || c == '\n' || c == '\r'

/-- JS `String.prototype.trim`: strip whitespace from both ends. -/
def jsTrim (s : String) : String :=
  ⟨((s.data.dropWhile isJsSpace).reverse.dropWhile isJsSpace).reverse⟩

/-- JS `Array.prototype.join(sep)`. -/
def jsJoin (sep : String) : List String → String
  | [] => ""
  | [x] => x
  | x :: xs => x ++ sep ++ jsJoin sep xs

/-- Lexicographic comparison of character lists by code point — the
default JS `Array.prototype.sort()` string comparison. -/
def charListLe : List Char → List Char → Bool
  | [], _ => true
  | _ :: _, [] => false
  | a :: as, b :: bs => if a = b then charListLe as bs else decide (a < b)

/-- The default JS string ordering used by `Array.prototype.sort()`. -/
def jsStrLe (a b : String) : Prop := charListLe a.data b.data = true

instance : DecidableRel jsStrLe := fun a b =>
  inferInstanceAs (Decidable (charListLe a.data b.data = true))

/-- A JSON/JS value as seen by the token-list validator.  `jundefined` is
the result of reading an absent property. -/
inductive Json where
  | jnull
  | jundefined
  | jbool (b : Bool)
  | jnum (n : JNum)
  | jstr (s : String)
  | jarr (elems : List Json)
  | jobj (fields : List (String × Json))
deriving Repr

/-- The JS `typeof` operator (on `Json` values). `typeof null` is
`"object"`, and arrays are objects. -/
def Json.typeOf : Json → String
  | .jnull => "object"
  | .jundefined => "undefined"
  | .jbool _ => "boolean"
  | .jnum _ => "number"
  | .jstr _ => "string"
  | .jarr _ => "object"
  | .jobj _ => "object"

/-- JS truthiness of a `Json` value. -/
def Json.truthy : Json → Bool
  | .jnull => false
  | .jundefined => false
  | .jbool b => b
  | .jnum n => !n.falsy
  | .jstr s => s != ""
  | .jarr _ => true
  | .jobj _ => true

/-- Property read `v.k`.  Reading a property of `null` or `undefined`
throws a `TypeError` (the `.error` case); reading a missing property of
any other value yields `undefined`. -/
def Json.getProp : Json → String → Except String Json
  | .jnull, k => .error ("TypeError: cannot read properties of null reading " ++ k)
  | .jundefined, k => .error ("TypeError: cannot read properties of undefined reading " ++ k)
  | .jobj fields, k => .ok ((fields.lookup k).getD .jundefined)
  | _, _ => .ok .jundefined

/-- The per-token check inside `validateTokenList`: the source evaluates
`typeof token.chainId !== "number" || typeof token.address !== "string" ||
typeof token.symbol !== "string" || typeof token.name !== "string" ||
typeof token.decimals !== "number"` left to right with short-circuiting;
a property read on a `null`/`undefined` element throws (propagated as
`.error`). -/
def tokenFieldsOk (token : Json) : Except String Bool := do
  let chainId ← token.getProp "chainId"
  if chainId.typeOf != "number" then pure false else do
  let address ← token.getProp "address"
  if address.typeOf != "string" then pure false else do
  let symbol ← token.getProp "symbol"
  if symbol.typeOf != "string" then pure false else do
  let name ← token.getProp "name"
  if name.typeOf != "string" then pure false else do
  let decimals ← token.getProp "decimals"
  if decimals.typeOf != "number" then pure false else
  pure true

/-- The `for (const token of data.tokens)` loop of `validateTokenList`:
returns `false` at the first bad element, `true` if all pass. -/
def tokensAllOk : List Json → Except String Bool
  | [] => .ok true
  | t :: ts => do
    let ok ← tokenFieldsOk t
    if ok then tokensAllOk ts else pure false

/-- `validateTokenList` from `src/lib/utils/tokenListValidation.ts`
(lines 35–63): rejects non-truthy / non-object payloads, requires `name`
to be a string with non-empty trim and `tokens` to be an array, and checks
the field types of each token. -/
def validateTokenList (data : Json) : Except String Bool := do
  if !data.truthy || data.typeOf != "object" then pure false else do
  let name ← data.getProp "name"
  match name with
  | .jstr s =>
    if jsTrim s == "" then pure false else do
      let tokens ← data.getProp "tokens"
      match tokens with
      | .jarr ts => tokensAllOk ts
      | _ => pure false
  | _ => pure false

/-- `data.tokens.length`, read after validation has succeeded. -/
def tokensLength (data : Json) : Nat :=
  match data.getProp "tokens" with
  | .ok (.jarr ts) => ts.length
  | _ => 0

/-- Result record `TokenListValidationResult` from the source. -/
structure TokenListValidationResult where
  url : String
  isValid : Bool
  error : Option String
  tokenCount : Option Nat
deriving Repr, DecidableEq

/-- Outcome of one `fetchTokenListWithTimeout` + parse round, as an
oracle: the fetch may throw (network error / abort), the response may be
non-ok (HTTP error), `response.json()` may throw, or a parsed payload is
produced. -/
inductive FetchResult where
  | netError (msg : String)
  | httpError (status : Nat) (statusText : String)
  | jsonError (msg : String)
  | payload (data : Json)

/-- The error message extracted by the `catch` block
(`error instanceof Error ? error.message : ...`). -/
def Except.errMsg : Except String α → Option String
  | .error m => some m
  | .ok _ => none

/-- Whether an `Except` is an error. -/
def exceptIsError : Except String α → Bool
  | .error _ => true
  | .ok _ => false

/-- The body of one attempt of `fetchTokenListWithRetry` (lines 100–117):
fetch, check `response.ok`, parse JSON, run `validateTokenList`; any
failure becomes a thrown-error message, success yields the valid
`TokenListValidationResult` with `tokenCount := data.tokens.length`. -/
def tryOnce (url : String) (r : FetchResult) : Except String TokenListValidationResult :=
  match r with
  | .netError msg => .error msg
  | .httpError status statusText =>
      .error ("HTTP " ++ toString status ++ ": " ++ statusText)
  | .jsonError msg => .error msg
  | .payload data =>
      match validateTokenList data with
      | .error msg => .error msg
      | .ok false => .error "Invalid token list format"
      | .ok true => .ok ⟨url, true, none, some (tokensLength data)⟩

/-- The fixed backoff table `delays = [1000, 2000, 4000]`. -/
def delays : List Nat := [1000, 2000, 4000]

/-- `delays[attempt] || delays[delays.length - 1]`: out-of-range (and the
impossible zero entry) falls back to the last table entry. -/
def delayFor (attempt : Nat) : Nat :=
  let d := (delays.get? attempt).getD 0
  if d != 0 then d else delays.getLastD 0

/-- Observable trace of a `fetchTokenListWithRetry` run: the returned
result, the backoff delays waited (in order), and the number of fetch
attempts performed. -/
structure RetryTrace where
  result : TokenListValidationResult
  waits : List Nat
  attempts : Nat
deriving Repr, DecidableEq

/-- The retry loop `for (attempt = 0; attempt <= maxRetries; attempt++)`
of `fetchTokenListWithRetry`, with `fuel` the number of remaining loop
iterations (`maxRetries + 1 - attempt`).  Exhausted fuel corresponds to
falling out of the loop (the unreachable `Max retries exceeded` return). -/
def retryFrom (fetchStep : Nat → FetchResult) (url : String) (maxRetries : Nat) :
    Nat → Nat → RetryTrace
  | _, 0 => ⟨⟨url, false, some "Max retries exceeded", none⟩, [], 0⟩
  | attempt, fuel + 1 =>
    match tryOnce url (fetchStep attempt) with
    | .ok res => ⟨res, [], 1⟩
    | .error msg =>
      if attempt == maxRetries then
        ⟨⟨url, false, some msg, none⟩, [], 1⟩
      else
        let rest := retryFrom fetchStep url maxRetries (attempt + 1) fuel
        ⟨rest.result, delayFor attempt :: rest.waits, rest.attempts + 1⟩

/-- `fetchTokenListWithRetry(url, maxRetries)` (lines 93–142), with the
per-attempt fetch outcomes supplied by the oracle `fetchStep`. -/
def fetchTokenListWithRetry (fetchStep : Nat → FetchResult) (url : String)
    (maxRetries : Nat) : RetryTrace :=
  retryFrom fetchStep url maxRetries 0 (maxRetries + 1)

/-- `validateTokenListUrl(url)` (lines 147–151): retry with
`maxRetries = 3`. -/
def validateTokenListUrl (fetchStep : Nat → FetchResult) (url : String) : RetryTrace :=
  fetchTokenListWithRetry fetchStep url 3

/-- `getValidatedTokenListUrls(primaryUrl, fallbackUrl)` (lines 160–196):
primary first; on failure the fallback is validated but returned even if
its own validation fails.  `env` maps a URL to its per-attempt fetch
outcomes. -/
def getValidatedTokenListUrls (env : String → Nat → FetchResult)
    (primaryUrl fallbackUrl : String) : List String :=
  let primaryResult := (validateTokenListUrl (env primaryUrl) primaryUrl).result
  if primaryResult.isValid then [primaryUrl]
  else
    let fallbackResult := (validateTokenListUrl (env fallbackUrl) fallbackUrl).result
    if fallbackResult.isValid then [fallbackUrl]
    else [fallbackUrl]

/-- Constant from `getCowSwapTokenLists`. -/
def vaultoPrimary : String := "https://vaulto.dev/api/token-list/"

/-- Constant from `getCowSwapTokenLists`. -/
def vaultoFallback : String := "/token-list.json"

/-- Constant from `getCowSwapTokenLists`. -/
def uniswapList : String := "https://ipfs.io/ipns/tokens.uniswap.org"

/-- `getCowSwapTokenLists()` (lines 236–293): validate the Vaulto primary
list first; on failure validate the Vaulto fallback but push it regardless
of the outcome; then validate the Uniswap list and append it only when
valid. -/
def getCowSwapTokenLists (env : String → Nat → FetchResult) : List String :=
  let validatedUrls : List String := []
  let vaultoPrimaryResult := (validateTokenListUrl (env vaultoPrimary) vaultoPrimary).result
  let validatedUrls :=
    if vaultoPrimaryResult.isValid then validatedUrls ++ [vaultoPrimary]
    else
      let vaultoFallbackResult :=
        (validateTokenListUrl (env vaultoFallback) vaultoFallback).result
      if vaultoFallbackResult.isValid then validatedUrls ++ [vaultoFallback]
      else validatedUrls ++ [vaultoFallback]
  let uniswapResult := (validateTokenListUrl (env uniswapList) uniswapList).result
  let validatedUrls :=
    if uniswapResult.isValid then validatedUrls ++ [uniswapList] else validatedUrls
  validatedUrls

/-! ## Client-side TTL cache (`src/unnamed/part_001`) -/

/-- Cache entry: stored data plus the `Date.now()` timestamp at store
time (milliseconds, modelled by `Int`). -/
structure CacheEntry (α : Type) where
  data : α
  timestamp : Int
deriving Repr, DecidableEq

/-- The `Map<string, CacheEntry>` store, modelled as an association list
whose lookup returns the most recent binding. -/
def CacheStore (α : Type) : Type := List (String × CacheEntry α)

/-- `CACHE_TTL_MS = 60 * 1000`. -/
def CACHE_TTL_MS : Int := 60 * 1000

/-- `isExpired(timestamp)`: `Date.now() - timestamp > CACHE_TTL_MS`,
with the current time passed explicitly. -/
def isExpired (now timestamp : Int) : Bool := now - timestamp > CACHE_TTL_MS

/-- `cacheStore.delete(key)`. -/
def cacheDelete (store : CacheStore α) (key : String) : CacheStore α :=
  store.filter (fun p => p.1 != key)

/-- `getCached(key)` at time `now`: returns the cached value (if present
and unexpired) together with the store after the call (an expired entry
is deleted on read). -/
def getCached (store : CacheStore α) (now : Int) (key : String) :
    Option α × CacheStore α :=
  match store.lookup key with
  | none => (none, store)
  | some entry =>
    if isExpired now entry.timestamp then (none, cacheDelete store key)
    else (some entry.data, store)

/-- `setCached(key, data)` at time `now`: `Map.set` replaces any existing
binding for the key. -/
def setCached (store : CacheStore α) (now : Int) (key : String) (data : α) :
    CacheStore α :=
  (key, ⟨data, now⟩) :: cacheDelete store key

/-- `getSolanaTokenDataCacheKey(addresses)` (part_001 lines 97–101): the
source copies the array (`[...addresses]`), sorts the copy, and joins it.
The first component is the returned key; the second is the input array
after the call (untouched, because only the copy is sorted). -/
def getSolanaTokenDataCacheKey (addresses : List String) : String × List String :=
  let sortedAddresses := List.insertionSort jsStrLe addresses
  ("solana-token-data-" ++ jsJoin "," sortedAddresses, addresses)

/-! ## Token-details client component (`src/unnamed/part_000`) -/

/-- The slice of CoinGecko price data the claims depend on. -/
structure PriceData where
  symbol : String
deriving Repr, DecidableEq

/-- Parsed body of the optional stock-data response (contents unused by
the claims). -/
structure StockData where
  ticker : String
deriving Repr, DecidableEq

/-- The optional stock-data fetch response: HTTP ok flag plus the
`response.json()` outcome (which may itself throw). -/
structure StockResponse where
  ok : Bool
  jsonBody : Except String StockData

/-- `solanaData.tokens?.[0]` fields (`undefined` modelled by `none`). -/
structure SolanaTokenData where
  tvlUSD : Option JNum
  volumeUSD : Option JNum

/-- The Solana token-data fetch response. -/
structure SolanaResponse where
  ok : Bool
  jsonBody : Except String (Option SolanaTokenData)

/-- One liquidity pool from `getPoolsForToken` (fields may be absent). -/
structure Pool where
  tvlUSD : Option JNum
  volumeUSD : Option JNum

/-- Oracle for every external call `fetchData` performs. -/
structure FetchEnv where
  priceByAddress : Int → String → Except String (Option PriceData)
  priceBySymbol : String → Except String (Option PriceData)
  stockFetch : Except String StockResponse
  solanaFetch : Except String SolanaResponse
  pools : Except String (Option (List Pool))

/-- Component context: props, URL-parameter-derived values, and config
lookups, fixed for one run of `fetchData`.  Strings that can be
`null`/`undefined` in the source are modelled as `""` (JS falsy). -/
structure ComponentCtx where
  address : String
  tokenChainId : Int
  tokenSymbolField : String
  isStock : Bool
  ticker : String
  searchResultSymbol : String
  initialTvl : Option JNum
  initialVolume : Option JNum

/-- Component state touched by the claims, plus counters for toast
notifications and console log lines. -/
structure ComponentState where
  coingeckoData : Option PriceData
  stockData : Option StockData
  tvlUSD : Option JNum
  volumeUSD : Option JNum
  isLoading : Bool
  error : Option String
  toasts : Nat
  logs : Nat
deriving Repr

/-- Initial `useState` values: all data `null`, `isLoading` `true`. -/
def initialComponentState : ComponentState :=
  ⟨none, none, none, none, true, none, 0, 0⟩

/-- The guarded URL-parameter parse (lines 65–72):
`!isNaN(val) && val > 0 ? val : null`, applied only when the parameter is
present; `param` is the `parseFloat` result of a present parameter. -/
def parseInitial (param : Option JNum) : Option JNum :=
  match param with
  | none => none
  | some v => if !v.isNaN && v.gt0 then some v else none

/-- The params `useEffect` (lines 103–110): set `tvlUSD`/`volumeUSD` from
the initial URL-parameter values when they are non-null. -/
def applyInitialParams (initialTvl initialVolume : Option JNum)
    (s : ComponentState) : ComponentState :=
  let s1 := match initialTvl with
    | some v => { s with tvlUSD := some v }
    | none => s
  match initialVolume with
  | some v => { s1 with volumeUSD := some v }
  | none => s1

/-- `tokenSymbol` (line 75): `searchResultSymbol || token?.symbol || "TOKEN"`. -/
def tokenSymbolOf (searchResultSymbol tokenSymbolField : String) : String :=
  strOr searchResultSymbol (strOr tokenSymbolField "TOKEN")

/-- `coingeckoData?.symbol` with `undefined` collapsed to `""` for the
falsy-chaining that consumes it. -/
def coingeckoSymbolOf : Option PriceData → String
  | some d => d.symbol
  | none => ""

/-- Ondo detection (lines 146 and 282):
`effectiveSymbol.toUpperCase().endsWith("ON") && effectiveSymbol.length > 2`. -/
def isOndoTokenOf (effectiveSymbol : String) : Bool :=
  jsEndsWith (jsToUpper effectiveSymbol) "ON" && decide (jsLength effectiveSymbol > 2)

/-- The alternate-chain loop (lines 132–140): try each chain id different
from `tokenChainId` until a price is found; a thrown fetch error
propagates. -/
def tryAltChains (env : FetchEnv) (addr : String) (tokenChainId : Int) :
    List Int → Except String (Option PriceData)
  | [] => .ok none
  | c :: cs =>
    if c ≠ tokenChainId then
      match env.priceByAddress c addr with
      | .error e => .error e
      | .ok (some d) => .ok (some d)
      | .ok none => tryAltChains env addr tokenChainId cs
    else tryAltChains env addr tokenChainId cs

/-- The primary price-fetch path (lines 119–140): by address, then by
symbol when the token config provides one, then alternate chain ids.
Any throw from these fetches escapes to the outer catch. -/
def pricePhase (env : FetchEnv) (address : String) (tokenChainId : Int)
    (tokenSymbolField : String) : Except String (Option PriceData) := do
  let p1 ← if address ≠ "" then env.priceByAddress tokenChainId address
           else pure none
  let p2 ← match p1 with
    | some d => pure (some d)
    | none =>
      if tokenSymbolField ≠ "" then env.priceBySymbol tokenSymbolField
      else pure none
  match p2 with
  | some d => pure (some d)
  | none =>
    if address ≠ "" then tryAltChains env address tokenChainId [1, 42161, 10, 8453, 137]
    else pure none

/-- The guarded optional stock-data fetch (lines 151–164): every failure
(thrown fetch, non-ok response, thrown `json()`) is caught by the inner
catch or logged with `console.warn`, never touching `error` or toasts. -/
def stockPhase (cond : Bool) (env : FetchEnv) (s : ComponentState) : ComponentState :=
  if cond then
    match env.stockFetch with
    | .error _ => { s with logs := s.logs + 1 }
    | .ok resp =>
      if resp.ok then
        match resp.jsonBody with
        | .ok stock => { s with stockData := some stock }
        | .error _ => { s with logs := s.logs + 1 }
      else { s with logs := s.logs + 1 }
  else s

/-- `pool.tvlUSD || 0` (and likewise for volume): absent, NaN and zero
all collapse to `0` before summation. -/
def jnumOr0 : Option JNum → Int
  | some (JNum.val x) => x
  | _ => 0

/-- `tokenData.tvlUSD !== undefined && tokenData.tvlUSD > 0`. -/
def definedAndPos : Option JNum → Bool
  | some v => v.gt0
  | none => false

/-- The guarded optional TVL/volume fetch (lines 166–216): Solana path
for chain 101, pools path otherwise; every setter is guarded by a `> 0`
check and every failure is swallowed by the inner catch. -/
def tvlPhase (ctx : ComponentCtx) (env : FetchEnv) (s : ComponentState) : ComponentState :=
  let needsTvl := ctx.initialTvl.isNone
  let needsVolume := ctx.initialVolume.isNone
  if needsTvl || needsVolume then
    if ctx.tokenChainId = 101 then
      match env.solanaFetch with
      | .error _ => { s with logs := s.logs + 1 }
      | .ok resp =>
        if resp.ok then
          match resp.jsonBody with
          | .error _ => { s with logs := s.logs + 1 }
          | .ok none => s
          | .ok (some td) =>
            let s1 := if needsTvl && definedAndPos td.tvlUSD then
                        { s with tvlUSD := td.tvlUSD } else s
            if needsVolume && definedAndPos td.volumeUSD then
              { s1 with volumeUSD := td.volumeUSD } else s1
        else s
    else
      match env.pools with
      | .error _ => { s with logs := s.logs + 1 }
      | .ok none => s
      | .ok (some pools) =>
        if pools.length > 0 then
          let totalTVL := pools.foldl (fun acc p => acc + jnumOr0 p.tvlUSD) 0
          let totalVolume := pools.foldl (fun acc p => acc + jnumOr0 p.volumeUSD) 0
          let s1 := if needsTvl && decide (totalTVL > 0) then
                      { s with tvlUSD := some (JNum.val totalTVL) } else s
          if needsVolume && decide (totalVolume > 0) then
            { s1 with volumeUSD := some (JNum.val totalVolume) } else s1
        else s
  else s

/-- The stock-fetch guard (lines 144–151), computed from the state the
effect closed over: `(isStock && ticker) || (isOndoToken && ondoTicker)`
with `effectiveSymbol = searchResultSymbol || coingeckoData?.symbol ||
tokenSymbol`. -/
def stockCondOf (ctx : ComponentCtx) (s0 : ComponentState) : Bool :=
  let effectiveSymbol :=
    strOr ctx.searchResultSymbol
      (strOr (coingeckoSymbolOf s0.coingeckoData)
        (tokenSymbolOf ctx.searchResultSymbol ctx.tokenSymbolField))
  let isOndoToken := isOndoTokenOf effectiveSymbol
  let ondoTicker := if isOndoToken then jsToUpper (jsDropRight effectiveSymbol 2) else ""
  (ctx.isStock && ctx.ticker != "") || (isOndoToken && ondoTicker != "")

/-- `fetchData` (lines 112–227): set loading, clear error, run the price
phase; on success run the guarded optional phases, on throw set the error
state and raise one toast; always clear loading in `finally`.  The
`coingeckoData` read on line 145 is the value captured at render time
(`s0`), not the freshly fetched one. -/
def fetchData (ctx : ComponentCtx) (env : FetchEnv) (s0 : ComponentState) : ComponentState :=
  let s := { s0 with isLoading := true, error := none }
  match pricePhase env ctx.address ctx.tokenChainId ctx.tokenSymbolField with
  | .error msg =>
    { s with logs := s.logs + 1,
             error := some (strOr msg "Failed to load token data"),
             toasts := s.toasts + 1,
             isLoading := false }
  | .ok priceData =>
    let s1 := { s with coingeckoData := priceData }
    let s2 := stockPhase (stockCondOf ctx s0) env s1
    let s3 := tvlPhase ctx env s2
    { s3 with isLoading := false }

/-- Chart type for the TradingView widget. -/
inductive ChartType where
  | stock
  | crypto
deriving Repr, DecidableEq

/-- `ondoTickerMappings` (lines 287–289). -/
def ondoTickerMappings : List (String × String) := [("SPYON", "SPY")]

/-- The chart-symbol derivation (lines 294–311): Ondo tokenized stocks
use the extracted ticker (with the special-mapping table consulted
first), config tokenized stocks use `NASDAQ:<ticker>`, everything else is
crypto. -/
def deriveChartSymbol (effectiveSymbol : String) (isStock : Bool) (ticker : String) :
    String × ChartType :=
  let isOndoToken := isOndoTokenOf effectiveSymbol
  let ondoTicker := if isOndoToken then jsToUpper (jsDropRight effectiveSymbol 2) else ""
  if isOndoToken && ondoTicker != "" then
    let upperSymbol := jsToUpper effectiveSymbol
    (strOr ((ondoTickerMappings.lookup upperSymbol).getD "") ondoTicker, .stock)
  else if isStock && ticker != "" then
    ("NASDAQ:" ++ ticker, .stock)
  else (effectiveSymbol, .crypto)

/-- The Tokenized Stock badge condition (lines 421–425):
`isStock || isOndoToken`. -/
def showTokenizedStockBadge (isStock : Bool) (effectiveSymbol : String) : Bool :=
  isStock || isOndoTokenOf effectiveSymbol

/-! ## Stock-pct-change GET route
(`src/app/api/token/[address]/stock-pct-change/route.ts`) -/

/-- Token metadata as consumed by the route: the outcome of
`isTokenizedStock(token)` and `getStockTicker(token)` (the latter
modelled as `""` when falsy/absent). -/
structure RouteTokenMeta where
  isTokenizedStock : Bool
  stockTicker : String

/-- Yahoo quote fields read by the route (`undefined` is `none`). -/
structure QuoteData where
  regularMarketChangePercent : Option JNum
  changePercent : Option JNum

/-- Oracle for everything outside the route handler itself:
`getTokenMetadata`, the dynamic import of yahoo-finance2, the quote call
(which may throw or return a falsy quote), and any unexpected throw that
lands in the outer catch. -/
structure RouteEnv where
  unexpected : Option String
  tokenInfo : Option RouteTokenMeta
  importOk : Bool
  quote : Except String (Option QuoteData)

/-- The JSON body and status produced by one `NextResponse.json` call in
the route, flattened: absent fields are `none`. -/
structure RouteResult where
  status : Nat
  priceChangePercent : Option JNum
  ticker : Option String
  error : Option String
  details : Option String
deriving Repr, DecidableEq

/-- The JS falsy-chain `a || b` on an optional number field. -/
def jnumOrElse (a : Option JNum) (b : JNum) : JNum :=
  match a with
  | some v => if v.falsy then b else v
  | none => b

/-- `GET` from the stock-pct-change route (lines 10–103). -/
def GET (env : RouteEnv) (address : String) : RouteResult :=
  match env.unexpected with
  | some msg => ⟨500, none, none, some "Internal server error", some msg⟩
  | none =>
    if address = "" then
      ⟨400, none, none, some "Token address is required", none⟩
    else
      match env.tokenInfo with
      | none => ⟨404, none, none, some "Token not found", none⟩
      | some tokenInfo =>
        if !tokenInfo.isTokenizedStock then
          ⟨400, none, none, some "Token is not a tokenized stock", none⟩
        else if tokenInfo.stockTicker = "" then
          ⟨400, none, none, some "Stock ticker not found for tokenized stock", none⟩
        else if !env.importOk then
          ⟨503, none, none, some "Stock data service unavailable", none⟩
        else
          match env.quote with
          | .error msg =>
            ⟨500, none, none,
              some ("Failed to fetch stock data: " ++ strOr msg "Unknown error"), none⟩
          | .ok none =>
            ⟨404, none, none,
              some ("Stock data not found for ticker: " ++ tokenInfo.stockTicker), none⟩
          | .ok (some quote) =>
            let priceChangePercent :=
              jnumOrElse quote.regularMarketChangePercent
                (jnumOrElse quote.changePercent (JNum.val 0))
            ⟨200, some priceChangePercent, some tokenInfo.stockTicker, none, none⟩

/-! ## Claim-side predicates (stated from the claim wording, to be
compared with the code-side definitions) -/

/-- Whether a looked-up property value is present with number type. -/
def lookedUpIsNum : Option Json → Bool
  | some (Json.jnum _) => true
  | _ => false

/-- Whether a looked-up property value is present with string type. -/
def lookedUpIsStr : Option Json → Bool
  | some (Json.jstr _) => true
  | _ => false

/-- Claim wording for one token element: it has `chainId` and `decimals`
of type number and `address`, `symbol` and `name` of type string. -/
def claimTokenOk (token : Json) : Bool :=
  match token with
  | .jobj fields =>
    lookedUpIsNum (fields.lookup "chainId")
    && lookedUpIsNum (fields.lookup "decimals")
    && lookedUpIsStr (fields.lookup "address")
    && lookedUpIsStr (fields.lookup "symbol")
    && lookedUpIsStr (fields.lookup "name")
  | _ => false

/-- Claim wording for an accepted payload: an object whose `name` is a
string non-empty after trimming, whose `tokens` is an array, and all of
whose token elements satisfy `claimTokenOk`. -/
def claimAcceptsTokenList (data : Json) : Bool :=
  match data with
  | .jobj fields =>
    (match fields.lookup "name" with
     | some (.jstr s) => jsTrim s != ""
     | _ => false)
    && (match fields.lookup "tokens" with
        | some (.jarr ts) => ts.all claimTokenOk
        | _ => false)
  | _ => false

/-- Invariant from C7 on one stored number: null, or a strictly positive
(hence non-NaN) value. -/
def okNum : Option JNum → Prop
  | none => True
  | some JNum.nan => False
  | some (JNum.val x) => 0 < x

/-- The C7 invariant on component state: `tvlUSD` and `volumeUSD` are
each null or strictly positive. -/
def TvlVolInv (s : ComponentState) : Prop := okNum s.tvlUSD ∧ okNum s.volumeUSD

/-! ## Ordering facts for the JS string sort -/

theorem charListLe_total (as bs : List Char) :
    charListLe as bs = true ∨ charListLe bs as = true := by
  induction as generalizing bs with
  | nil => left; rfl
  | cons a as ih =>
    cases bs with
    | nil => right; rfl
    | cons b bs =>
      by_cases hab : a = b
      · subst hab
        simpa [charListLe] using ih bs
      · rcases lt_or_gt_of_ne hab with h | h
        · left; simp [charListLe, hab, h]
        · right; simp [charListLe, Ne.symm hab, h]

theorem charListLe_trans (as bs cs : List Char) (h1 : charListLe as bs = true)
    (h2 : charListLe bs cs = true) : charListLe as cs = true := by
  induction as generalizing bs cs with
  | nil => rfl
  | cons a as ih =>
    cases bs with
    | nil => simp [charListLe] at h1
    | cons b bs =>
      cases cs with
      | nil => simp [charListLe] at h2
      | cons c cs =>
        by_cases hab : a = b <;> by_cases hbc : b = c
        · subst hab; subst hbc
          simp only [charListLe, if_pos rfl] at h1 h2 ⊢
          exact ih bs cs h1 h2
        · subst hab
          simp only [charListLe, if_pos rfl, if_neg hbc] at h1 h2
          simp only [charListLe, if_neg hbc]
          exact h2
        · subst hbc
          simp only [charListLe, if_pos rfl, if_neg hab] at h1 h2
          simp only [charListLe, if_neg hab]
          exact h1
        · simp only [charListLe, if_neg hab, if_neg hbc, decide_eq_true_eq] at h1 h2
          have hac : a < c := lt_trans h1 h2
          simp [charListLe, ne_of_lt hac, hac]

theorem charListLe_antisymm (as bs : List Char) (h1 : charListLe as bs = true)
    (h2 : charListLe bs as = true) : as = bs := by
  induction as generalizing bs with
  | nil =>
    cases bs with
    | nil => rfl
    | cons b bs => simp [charListLe] at h2
  | cons a as ih =>
    cases bs with
    | nil => simp [charListLe] at h1
    | cons b bs =>
      by_cases hab : a = b
      · subst hab
        simp only [charListLe, if_pos rfl] at h1 h2
        rw [ih bs h1 h2]
      · simp only [charListLe, if_neg hab, if_neg (Ne.symm hab), decide_eq_true_eq] at h1 h2
        exact absurd (lt_trans h1 h2) (lt_irrefl a)

instance : IsTotal String jsStrLe := ⟨fun a b => charListLe_total a.data b.data⟩

instance : IsTrans String jsStrLe :=
  ⟨fun a b c h1 h2 => charListLe_trans a.data b.data c.data h1 h2⟩

instance : IsAntisymm String jsStrLe :=
  ⟨fun a b h1 h2 => by
    cases a with
    | mk da =>
      cases b with
      | mk db => exact congrArg String.mk (charListLe_antisymm da db h1 h2)⟩

/-! ## Claim theorems -/

/-- C10: getSolanaTokenDataCacheKey is invariant under permutation of its
input — two address lists that are permutations of each other give the
same cache key — and it never mutates the array supplied by the caller
(the second component models the array state after the call). -/
theorem getSolanaTokenDataCacheKey_perm (xs ys : List String) (h : xs.Perm ys) :
    (getSolanaTokenDataCacheKey xs).1 = (getSolanaTokenDataCacheKey ys).1
    ∧ (getSolanaTokenDataCacheKey xs).2 = xs := by
  refine ⟨?_, rfl⟩
  have hsort : List.insertionSort jsStrLe xs = List.insertionSort jsStrLe ys :=
    List.eq_of_perm_of_sorted
      (((List.perm_insertionSort jsStrLe xs).trans h).trans
        (List.perm_insertionSort jsStrLe ys).symm)
      (List.sorted_insertionSort jsStrLe xs) (List.sorted_insertionSort jsStrLe ys)
  simp [getSolanaTokenDataCacheKey, hsort]

/-- C10 witness: a concrete two-address permutation pair. -/
theorem getSolanaTokenDataCacheKey_perm_witness :
    (getSolanaTokenDataCacheKey ["So1B", "So1A"]).1
      = (getSolanaTokenDataCacheKey ["So1A", "So1B"]).1
    ∧ (getSolanaTokenDataCacheKey ["So1B", "So1A"]).2 = ["So1B", "So1A"] :=
  getSolanaTokenDataCacheKey_perm ["So1B", "So1A"] ["So1A", "So1B"]
    (List.Perm.swap "So1A" "So1B" [])

/-- C2: after setCached at time t0, getCached within the 60-second TTL
window (t - t0 at most 60000 ms) returns exactly the stored value, and
strictly after the window (t - t0 greater than 60000 ms) returns none,
with no intervening write for the key. -/
theorem getCached_setCached_ttl {α : Type} (store : CacheStore α) (t0 t : Int)
    (k : String) (v : α) :
    (t - t0 ≤ 60000 → (getCached (setCached store t0 k v) t k).1 = some v)
    ∧ (t - t0 > 60000 → (getCached (setCached store t0 k v) t k).1 = none) := by
  constructor <;> intro h
  · have hexp : isExpired t t0 = false := by
      simp only [isExpired, CACHE_TTL_MS]
      simp only [decide_eq_false_iff_not, not_lt]
      omega
    simp [getCached, setCached, List.lookup, hexp]
  · have hexp : isExpired t t0 = true := by
      simp only [isExpired, CACHE_TTL_MS]
      simp only [decide_eq_true_eq]
      omega
    simp [getCached, setCached, List.lookup, hexp]

/-- C2 witness: store at time 0, read back at the TTL boundary and one
millisecond after it. -/
theorem getCached_setCached_ttl_witness :
    ((getCached (setCached ([] : CacheStore Nat) 0 "price" 7) 60000 "price").1 = some 7)
    ∧ ((getCached (setCached ([] : CacheStore Nat) 0 "price" 7) 60001 "price").1 = none) :=
  ⟨(getCached_setCached_ttl [] 0 60000 "price" 7).1 (by norm_num),
   (getCached_setCached_ttl [] 0 60001 "price" 7).2 (by norm_num)⟩

/-- C9: every effective symbol whose uppercase form ends in ON with
length greater than 2 is classified as a tokenized stock regardless of
the config flags: chartType is stock, chartSymbol is the symbol with its
last two characters removed and uppercased (except the SPYON to SPY
mapping), and the Tokenized Stock badge is shown. -/
theorem ondo_classified_stock (sym : String) (isStock : Bool) (ticker : String)
    (h1 : jsEndsWith (jsToUpper sym) "ON" = true) (h2 : 2 < jsLength sym) :
    deriveChartSymbol sym isStock ticker =
      ((if jsToUpper sym = "SPYON" then "SPY" else jsToUpper (jsDropRight sym 2)),
        ChartType.stock)
    ∧ showTokenizedStockBadge isStock sym = true := by
  have hOndo : isOndoTokenOf sym = true := by
    simp [isOndoTokenOf, h1, h2]
  have hlen : (jsToUpper (jsDropRight sym 2)).data.length = jsLength sym - 2 := by
    simp [jsToUpper, jsDropRight, jsLength]
  have hne : (jsToUpper (jsDropRight sym 2)) ≠ "" := by
    intro hcontra
    rw [hcontra] at hlen
    simp at hlen
    omega
  have hbne : (jsToUpper (jsDropRight sym 2) != "") = true := by
    simp [bne, hne]
  constructor
  · by_cases hspy : jsToUpper sym = "SPYON"
    · simp [deriveChartSymbol, hOndo, hbne, ondoTickerMappings, List.lookup, hspy, strOr]
    · have hspyb : (jsToUpper sym == "SPYON") = false := by
        simp [hspy]
      simp [deriveChartSymbol, hOndo, hbne, ondoTickerMappings, List.lookup, hspyb,
        strOr, hspy]
  · simp [showTokenizedStockBadge, hOndo]

/-- C9 witness: the ordinary crypto symbol TON (not a tokenized stock in
any config) is nevertheless classified as the stock T. -/
theorem ondo_classified_stock_witness :
    deriveChartSymbol "TON" false "" = ("T", ChartType.stock)
    ∧ showTokenizedStockBadge false "TON" = true := by
  obtain ⟨h1, h2⟩ := ondo_classified_stock "TON" false "" (by decide) (by decide)
  refine ⟨?_, h2⟩
  rw [h1]
  decide

/-- C1 counterexample: with a fetch that always fails, the retry routine
performs 4 fetch attempts (not 3 as claimed) and waits three times
(1s, 2s, 4s), because the loop runs attempt = 0 through maxRetries = 3
inclusive. -/
theorem retry_three_attempts_counterexample :
    (fetchTokenListWithRetry (fun _ => FetchResult.netError "network down")
        "https://list.example/tokens" 3).attempts = 4
    ∧ (fetchTokenListWithRetry (fun _ => FetchResult.netError "network down")
        "https://list.example/tokens" 3).attempts ≠ 3
    ∧ (fetchTokenListWithRetry (fun _ => FetchResult.netError "network down")
        "https://list.example/tokens" 3).waits = [1000, 2000, 4000]
    ∧ (fetchTokenListWithRetry (fun _ => FetchResult.netError "network down")
        "https://list.example/tokens" 3).result =
        ⟨"https://list.example/tokens", false, some "network down", none⟩ :=
  ⟨rfl, by decide, rfl, rfl⟩

/-- C1 (amended): for every URL whose fetch-and-validate step always
fails, fetchTokenListWithRetry (and hence validateTokenListUrl, which
calls it with maxRetries 3) performs exactly 4 fetch attempts, waiting
1s, 2s and 4s after the first, second and third failures, and returns a
result with isValid false carrying the last error message. -/
theorem retry_always_fail_trace (f : Nat → FetchResult) (url : String)
    (h : ∀ i, exceptIsError (tryOnce url (f i)) = true) :
    (fetchTokenListWithRetry f url 3).attempts = 4
    ∧ (fetchTokenListWithRetry f url 3).waits = [1000, 2000, 4000]
    ∧ (fetchTokenListWithRetry f url 3).result.isValid = false
    ∧ (fetchTokenListWithRetry f url 3).result.error = (tryOnce url (f 3)).errMsg
    ∧ validateTokenListUrl f url = fetchTokenListWithRetry f url 3 := by
  have h0 := h 0
  have h1 := h 1
  have h2 := h 2
  have h3 := h 3
  cases e0 : tryOnce url (f 0) with
  | ok r => rw [e0] at h0; simp [exceptIsError] at h0
  | error m0 =>
    cases e1 : tryOnce url (f 1) with
    | ok r => rw [e1] at h1; simp [exceptIsError] at h1
    | error m1 =>
      cases e2 : tryOnce url (f 2) with
      | ok r => rw [e2] at h2; simp [exceptIsError] at h2
      | error m2 =>
        cases e3 : tryOnce url (f 3) with
        | ok r => rw [e3] at h3; simp [exceptIsError] at h3
        | error m3 =>
          simp [fetchTokenListWithRetry, validateTokenListUrl, retryFrom,
            e0, e1, e2, e3, delayFor, delays, Except.errMsg]

/-- C1 witness: a concrete always-failing fetch. -/
theorem retry_always_fail_trace_witness :
    (fetchTokenListWithRetry (fun _ => FetchResult.netError "boom") "u" 3).attempts = 4
    ∧ (fetchTokenListWithRetry (fun _ => FetchResult.netError "boom") "u" 3).waits
        = [1000, 2000, 4000]
    ∧ (fetchTokenListWithRetry (fun _ => FetchResult.netError "boom") "u" 3).result.isValid
        = false
    ∧ (fetchTokenListWithRetry (fun _ => FetchResult.netError "boom") "u" 3).result.error
        = (tryOnce "u" (FetchResult.netError "boom")).errMsg
    ∧ validateTokenListUrl (fun _ => FetchResult.netError "boom") "u"
        = fetchTokenListWithRetry (fun _ => FetchResult.netError "boom") "u" 3 :=
  retry_always_fail_trace (fun _ => FetchResult.netError "boom") "u" (fun _ => rfl)

/-- C4: when validation of the primary URL fails and validation of the
fallback URL succeeds, getValidatedTokenListUrls returns exactly the
one-element list holding the fallback URL, which does not contain the
primary URL. -/
theorem fallback_only_when_primary_fails (env : String → Nat → FetchResult)
    (primaryUrl fallbackUrl : String)
    (hp : (validateTokenListUrl (env primaryUrl) primaryUrl).result.isValid = false)
    (hf : (validateTokenListUrl (env fallbackUrl) fallbackUrl).result.isValid = true) :
    getValidatedTokenListUrls env primaryUrl fallbackUrl = [fallbackUrl]
    ∧ primaryUrl ∉ getValidatedTokenListUrls env primaryUrl fallbackUrl := by
  have hne : primaryUrl ≠ fallbackUrl := by
    intro he
    rw [he, hf] at hp
    exact Bool.noConfusion hp
  refine ⟨?_, ?_⟩ <;> simp [getValidatedTokenListUrls, hp, hf, hne]

/-- Minimal valid token-list payload used by witnesses. -/
def goodPayload : Json :=
  Json.jobj [("name", Json.jstr "Vaulto Token List"), ("tokens", Json.jarr [])]

/-- Witness environment: the local static list URL serves a valid
payload, every other URL fails with a network error. -/
def sampleListEnv : String → Nat → FetchResult := fun u _ =>
  if u = "/token-list.json" then FetchResult.payload goodPayload
  else FetchResult.netError "network down"

/-- C4 witness: concrete failing primary and valid fallback. -/
theorem fallback_only_when_primary_fails_witness :
    getValidatedTokenListUrls sampleListEnv "https://bad.example/list" "/token-list.json"
      = ["/token-list.json"]
    ∧ "https://bad.example/list"
        ∉ getValidatedTokenListUrls sampleListEnv "https://bad.example/list" "/token-list.json" :=
  fallback_only_when_primary_fails sampleListEnv "https://bad.example/list" "/token-list.json"
    (by rfl) (by rfl)

/-- C8: for every outcome of the three list validations,
getCowSwapTokenLists returns the Vaulto primary URL first when it
validates and the Vaulto fallback URL first otherwise (even when the
fallback itself fails validation), followed by the Uniswap URL exactly
when the Uniswap list validates; the result is never empty. -/
theorem getCowSwapTokenLists_spec (env : String → Nat → FetchResult) :
    getCowSwapTokenLists env =
      (if (validateTokenListUrl (env vaultoPrimary) vaultoPrimary).result.isValid
        then [vaultoPrimary] else [vaultoFallback])
      ++ (if (validateTokenListUrl (env uniswapList) uniswapList).result.isValid
          then [uniswapList] else [])
    ∧ getCowSwapTokenLists env ≠ []
    ∧ (getCowSwapTokenLists env).head? =
        some (if (validateTokenListUrl (env vaultoPrimary) vaultoPrimary).result.isValid
              then vaultoPrimary else vaultoFallback)
    ∧ ((getCowSwapTokenLists env).get? 1 = some uniswapList ↔
        (validateTokenListUrl (env uniswapList) uniswapList).result.isValid = true) := by
  cases hp : (validateTokenListUrl (env vaultoPrimary) vaultoPrimary).result.isValid <;>
    cases hu : (validateTokenListUrl (env uniswapList) uniswapList).result.isValid <;>
      simp [getCowSwapTokenLists, hp, hu]

/-- C6: the stock-pct-change GET handler answers 200 with a numeric
priceChangePercent, a ticker and no error field on every success path,
answers with an error string on every non-200 path, and only ever uses
the statuses 200, 400, 404, 500 and 503. -/
theorem GET_response_shape (env : RouteEnv) (address : String) :
    ((GET env address).status = 200 →
      ((GET env address).priceChangePercent.isSome
        ∧ (GET env address).ticker.isSome
        ∧ (GET env address).error = none))
    ∧ ((GET env address).status ≠ 200 → (GET env address).error.isSome)
    ∧ (GET env address).status ∈ ([200, 400, 404, 500, 503] : List Nat) := by
  unfold GET
  rcases env with ⟨u, ti, io, q⟩
  cases u with
  | some m => simp
  | none =>
    by_cases ha : address = ""
    · simp [ha]
    · cases ti with
      | none => simp [ha]
      | some t =>
        cases hts : t.isTokenizedStock <;> cases hio : io <;>
          by_cases htk : t.stockTicker = "" <;>
            rcases q with m | (_ | qd) <;> simp [ha, hts, hio, htk]

/-- Successful route environment used by the C6 witness. -/
def okRouteEnv : RouteEnv :=
  ⟨none, some ⟨true, "AAPL"⟩, true, Except.ok (some ⟨some (JNum.val 3), none⟩)⟩

/-- Route environment with an unknown token, used by the C6 witness. -/
def notFoundRouteEnv : RouteEnv := ⟨none, none, true, Except.ok none⟩

/-- C6 witness: a concrete 200 response and a concrete 404 response. -/
theorem GET_response_shape_witness :
    ((GET okRouteEnv "0xabc").priceChangePercent.isSome
      ∧ (GET okRouteEnv "0xabc").ticker.isSome
      ∧ (GET okRouteEnv "0xabc").error = none)
    ∧ (GET notFoundRouteEnv "0xabc").error.isSome :=
  ⟨(GET_response_shape okRouteEnv "0xabc").1 (by rfl),
   (GET_response_shape notFoundRouteEnv "0xabc").2.1 (by decide)⟩

/-! ## Component phase lemmas -/

theorem stockPhase_error (c : Bool) (env : FetchEnv) (s : ComponentState) :
    (stockPhase c env s).error = s.error := by
  simp only [stockPhase]
  repeat' split
  all_goals rfl

theorem stockPhase_toasts (c : Bool) (env : FetchEnv) (s : ComponentState) :
    (stockPhase c env s).toasts = s.toasts := by
  simp only [stockPhase]
  repeat' split
  all_goals rfl

theorem stockPhase_tvl (c : Bool) (env : FetchEnv) (s : ComponentState) :
    (stockPhase c env s).tvlUSD = s.tvlUSD := by
  simp only [stockPhase]
  repeat' split
  all_goals rfl

theorem stockPhase_volume (c : Bool) (env : FetchEnv) (s : ComponentState) :
    (stockPhase c env s).volumeUSD = s.volumeUSD := by
  simp only [stockPhase]
  repeat' split
  all_goals rfl

theorem stockPhase_logs_le (c : Bool) (env : FetchEnv) (s : ComponentState) :
    s.logs ≤ (stockPhase c env s).logs := by
  simp only [stockPhase]
  repeat' split
  all_goals first | exact le_rfl | exact Nat.le_succ _

theorem stockPhase_logs_incr (env : FetchEnv) (s : ComponentState)
    (he : exceptIsError env.stockFetch = true) :
    (stockPhase true env s).logs = s.logs + 1 := by
  simp only [stockPhase]
  cases hsf : env.stockFetch with
  | error m => simp
  | ok r =>
    rw [hsf] at he
    simp [exceptIsError] at he

theorem tvlPhase_error (ctx : ComponentCtx) (env : FetchEnv) (s : ComponentState) :
    (tvlPhase ctx env s).error = s.error := by
  simp only [tvlPhase]
  repeat' split
  all_goals rfl

theorem tvlPhase_toasts (ctx : ComponentCtx) (env : FetchEnv) (s : ComponentState) :
    (tvlPhase ctx env s).toasts = s.toasts := by
  simp only [tvlPhase]
  repeat' split
  all_goals rfl

theorem tvlPhase_logs_le (ctx : ComponentCtx) (env : FetchEnv) (s : ComponentState) :
    s.logs ≤ (tvlPhase ctx env s).logs := by
  simp only [tvlPhase]
  repeat' split
  all_goals first | exact le_rfl | exact Nat.le_succ _

theorem tvlPhase_logs_incr (ctx : ComponentCtx) (env : FetchEnv) (s : ComponentState)
    (hn : (ctx.initialTvl.isNone || ctx.initialVolume.isNone) = true)
    (he : (if ctx.tokenChainId = 101 then exceptIsError env.solanaFetch
           else exceptIsError env.pools) = true) :
    (tvlPhase ctx env s).logs = s.logs + 1 := by
  simp only [tvlPhase, hn, if_true]
  by_cases hc : ctx.tokenChainId = 101
  · rw [if_pos hc] at he ⊢
    cases hsf : env.solanaFetch with
    | error m => rfl
    | ok r =>
      rw [hsf] at he
      simp [exceptIsError] at he
  · rw [if_neg hc] at he ⊢
    cases hp : env.pools with
    | error m => rfl
    | ok r =>
      rw [hp] at he
      simp [exceptIsError] at he

/-- C5: in the data-fetch routine, optional stock-data and TVL/volume
failures are caught and logged without touching the error state or the
toast count; a primary price-fetch failure sets the error state and
raises exactly one toast; and the routine always ends with isLoading
false. -/
theorem fetchData_error_policy (ctx : ComponentCtx) (env : FetchEnv) (s0 : ComponentState) :
    (fetchData ctx env s0).isLoading = false
    ∧ (∀ d, pricePhase env ctx.address ctx.tokenChainId ctx.tokenSymbolField = .ok d →
        (fetchData ctx env s0).error = none ∧ (fetchData ctx env s0).toasts = s0.toasts)
    ∧ (∀ msg, pricePhase env ctx.address ctx.tokenChainId ctx.tokenSymbolField = .error msg →
        (fetchData ctx env s0).error = some (strOr msg "Failed to load token data")
        ∧ (fetchData ctx env s0).toasts = s0.toasts + 1)
    ∧ (∀ d, pricePhase env ctx.address ctx.tokenChainId ctx.tokenSymbolField = .ok d →
        stockCondOf ctx s0 = true → exceptIsError env.stockFetch = true →
        s0.logs < (fetchData ctx env s0).logs)
    ∧ (∀ d, pricePhase env ctx.address ctx.tokenChainId ctx.tokenSymbolField = .ok d →
        (ctx.initialTvl.isNone || ctx.initialVolume.isNone) = true →
        (if ctx.tokenChainId = 101 then exceptIsError env.solanaFetch
         else exceptIsError env.pools) = true →
        s0.logs < (fetchData ctx env s0).logs) := by
  cases hpp : pricePhase env ctx.address ctx.tokenChainId ctx.tokenSymbolField with
  | error m =>
    refine ⟨by simp [fetchData, hpp], ?_, ?_, ?_, ?_⟩
    · intro d hd
      exact absurd hd (by simp)
    · intro msg hmsg
      injection hmsg with hm
      subst hm
      constructor <;> simp [fetchData, hpp]
    · intro d hd
      exact absurd hd (by simp)
    · intro d hd
      exact absurd hd (by simp)
  | ok d =>
    refine ⟨?_, ?_, ?_, ?_, ?_⟩
    · simp [fetchData, hpp]
    · intro d2 _
      constructor
      · simp [fetchData, hpp, tvlPhase_error, stockPhase_error]
      · simp [fetchData, hpp, tvlPhase_toasts, stockPhase_toasts]
    · intro msg hmsg
      exact absurd hmsg (by simp)
    · intro d2 _ hc he
      have hS1logs : ({ s0 with isLoading := true, error := none, coingeckoData := d } : ComponentState).logs = s0.logs := rfl
      have h1 : s0.logs < (stockPhase (stockCondOf ctx s0) env { s0 with isLoading := true, error := none, coingeckoData := d }).logs := by
        rw [hc, stockPhase_logs_incr env _ he, hS1logs]
        exact Nat.lt_succ_of_le le_rfl
      have h2 := tvlPhase_logs_le ctx env (stockPhase (stockCondOf ctx s0) env { s0 with isLoading := true, error := none, coingeckoData := d })
      have h3 : s0.logs < (tvlPhase ctx env (stockPhase (stockCondOf ctx s0) env { s0 with isLoading := true, error := none, coingeckoData := d })).logs :=
        lt_of_lt_of_le h1 h2
      simpa [fetchData, hpp] using h3
    · intro d2 _ hn he
      have hS1logs : ({ s0 with isLoading := true, error := none, coingeckoData := d } : ComponentState).logs = s0.logs := rfl
      have h1 := stockPhase_logs_le (stockCondOf ctx s0) env { s0 with isLoading := true, error := none, coingeckoData := d }
      have h2 : (tvlPhase ctx env (stockPhase (stockCondOf ctx s0) env { s0 with isLoading := true, error := none, coingeckoData := d })).logs = (stockPhase (stockCondOf ctx s0) env { s0 with isLoading := true, error := none, coingeckoData := d }).logs + 1 :=
        tvlPhase_logs_incr ctx env _ hn he
      have h3 : s0.logs < (tvlPhase ctx env (stockPhase (stockCondOf ctx s0) env { s0 with isLoading := true, error := none, coingeckoData := d })).logs := by
        omega
      simpa [fetchData, hpp] using h3

/-- Context for the C5 witness: an Ondo token from public search. -/
def ctxSample : ComponentCtx := ⟨"0xabc", 1, "NVDAon", false, "", "", none, none⟩

/-- Environment for the C5 witness where only the optional fetches fail. -/
def envOptFail : FetchEnv :=
  ⟨fun _ _ => Except.ok (some ⟨"nvdaon"⟩), fun _ => Except.ok none,
    Except.error "stock fetch failed", Except.error "solana fetch failed",
    Except.error "pools fetch failed"⟩

/-- Environment for the C5 witness where the primary price fetch fails. -/
def envPriceFail : FetchEnv :=
  ⟨fun _ _ => Except.error "netdown", fun _ => Except.ok none,
    Except.ok ⟨true, Except.ok ⟨"NVDA"⟩⟩, Except.ok ⟨true, Except.ok none⟩,
    Except.ok none⟩

/-- C5 witness: optional failures leave error and toasts untouched but
are logged; a price failure sets the error and one toast. -/
theorem fetchData_error_policy_witness :
    (fetchData ctxSample envOptFail initialComponentState).isLoading = false
    ∧ ((fetchData ctxSample envOptFail initialComponentState).error = none
        ∧ (fetchData ctxSample envOptFail initialComponentState).toasts
            = initialComponentState.toasts)
    ∧ ((fetchData ctxSample envPriceFail initialComponentState).error
          = some (strOr "netdown" "Failed to load token data")
        ∧ (fetchData ctxSample envPriceFail initialComponentState).toasts
            = initialComponentState.toasts + 1)
    ∧ initialComponentState.logs < (fetchData ctxSample envOptFail initialComponentState).logs :=
  ⟨(fetchData_error_policy ctxSample envOptFail initialComponentState).1,
   (fetchData_error_policy ctxSample envOptFail initialComponentState).2.1
     (some ⟨"nvdaon"⟩) (by rfl),
   (fetchData_error_policy ctxSample envPriceFail initialComponentState).2.2.1
     "netdown" (by rfl),
   (fetchData_error_policy ctxSample envOptFail initialComponentState).2.2.2.1
     (some ⟨"nvdaon"⟩) (by rfl) (by rfl) (by rfl)⟩

/-! ## Invariant lemmas for C7 -/

theorem okNum_of_definedAndPos (o : Option JNum) (h : definedAndPos o = true) : okNum o := by
  cases o with
  | none => simp [definedAndPos] at h
  | some v =>
    cases v with
    | nan => simp [definedAndPos, JNum.gt0] at h
    | val x =>
      simp only [definedAndPos, JNum.gt0, decide_eq_true_eq] at h
      exact h

theorem okNum_parseInitial (p : Option JNum) : okNum (parseInitial p) := by
  cases p with
  | none => simp [parseInitial, okNum]
  | some v =>
    cases v with
    | nan => simp [parseInitial, JNum.isNaN, okNum]
    | val x =>
      by_cases hx : (0 : Int) < x
      · simp [parseInitial, JNum.isNaN, JNum.gt0, hx, okNum]
      · simp [parseInitial, JNum.isNaN, JNum.gt0, hx, okNum]

theorem tvlPhase_inv (ctx : ComponentCtx) (env : FetchEnv) (s : ComponentState)
    (h : TvlVolInv s) : TvlVolInv (tvlPhase ctx env s) := by
  simp only [tvlPhase]
  repeat' split
  all_goals
    first
      | exact h
      | exact ⟨h.1, h.2⟩
      | (constructor <;>
          first
            | exact h.1
            | exact h.2
            | (apply okNum_of_definedAndPos; simp_all; done)
            | (simp_all [okNum, definedAndPos, JNum.gt0]; done))

theorem fetchData_inv (ctx : ComponentCtx) (env : FetchEnv) (s0 : ComponentState)
    (h : TvlVolInv s0) : TvlVolInv (fetchData ctx env s0) := by
  cases hpp : pricePhase env ctx.address ctx.tokenChainId ctx.tokenSymbolField with
  | error m =>
    simp only [fetchData, hpp]
    exact ⟨h.1, h.2⟩
  | ok d =>
    simp only [fetchData, hpp]
    have hS1 : TvlVolInv ({ s0 with isLoading := true, error := none, coingeckoData := d } : ComponentState) :=
      ⟨h.1, h.2⟩
    have hS2 : TvlVolInv (stockPhase (stockCondOf ctx s0) env { s0 with isLoading := true, error := none, coingeckoData := d }) :=
      ⟨by rw [stockPhase_tvl]; exact hS1.1, by rw [stockPhase_volume]; exact hS1.2⟩
    have hS3 := tvlPhase_inv ctx env _ hS2
    exact ⟨hS3.1, hS3.2⟩

/-- C7: tvlUSD and volumeUSD are null or strictly positive after every
state update: the initial state has both null, URL-parameter values that
are NaN or not positive are discarded by the parse guard, the
params effect preserves the invariant, and every fetch path preserves it
because each setter call is guarded by a positivity check. -/
theorem tvl_volume_null_or_positive :
    TvlVolInv initialComponentState
    ∧ (∀ p, okNum (parseInitial p))
    ∧ (∀ p q s, TvlVolInv s →
        TvlVolInv (applyInitialParams (parseInitial p) (parseInitial q) s))
    ∧ (∀ ctx env s, TvlVolInv s → TvlVolInv (fetchData ctx env s)) := by
  refine ⟨⟨trivial, trivial⟩, okNum_parseInitial, ?_, fetchData_inv⟩
  intro p q s hs
  unfold applyInitialParams
  have hp := okNum_parseInitial p
  have hq := okNum_parseInitial q
  cases hP : parseInitial p with
  | none =>
    cases hQ : parseInitial q with
    | none => exact hs
    | some v =>
      rw [hQ] at hq
      exact ⟨hs.1, hq⟩
  | some v =>
    rw [hP] at hp
    cases hQ : parseInitial q with
    | none => exact ⟨hp, hs.2⟩
    | some w =>
      rw [hQ] at hq
      exact ⟨hp, hq⟩

/-- C7 witness: NaN and negative parameters are discarded, a positive
TVL parameter with a zero volume parameter keeps the invariant, and a
run whose optional fetches all fail keeps the invariant. -/
theorem tvl_volume_null_or_positive_witness :
    okNum (parseInitial (some JNum.nan))
    ∧ okNum (parseInitial (some (JNum.val (-5))))
    ∧ TvlVolInv (applyInitialParams (parseInitial (some (JNum.val 250)))
        (parseInitial (some (JNum.val 0))) initialComponentState)
    ∧ TvlVolInv (fetchData ⟨"0xabc", 1, "ETH", false, "", "", none, none⟩
        ⟨fun _ _ => Except.ok none, fun _ => Except.ok none,
          Except.error "s", Except.error "s", Except.error "p"⟩ initialComponentState) :=
  ⟨tvl_volume_null_or_positive.2.1 (some JNum.nan),
   tvl_volume_null_or_positive.2.1 (some (JNum.val (-5))),
   tvl_volume_null_or_positive.2.2.1 (some (JNum.val 250)) (some (JNum.val 0))
     initialComponentState ⟨trivial, trivial⟩,
   tvl_volume_null_or_positive.2.2.2 ⟨"0xabc", 1, "ETH", false, "", "", none, none⟩
     ⟨fun _ _ => Except.ok none, fun _ => Except.ok none,
       Except.error "s", Except.error "s", Except.error "p"⟩
     initialComponentState ⟨trivial, trivial⟩⟩

/-! ## Equivalence lemmas for C3 -/

theorem typeOf_getD_num (o : Option Json) :
    ((o.getD Json.jundefined).typeOf = "number") ↔ lookedUpIsNum o = true := by
  cases o with
  | none => simp [Json.typeOf, lookedUpIsNum]
  | some j => cases j <;> simp [Json.typeOf, lookedUpIsNum]

theorem typeOf_getD_str (o : Option Json) :
    ((o.getD Json.jundefined).typeOf = "string") ↔ lookedUpIsStr o = true := by
  cases o with
  | none => simp [Json.typeOf, lookedUpIsStr]
  | some j => cases j <;> simp [Json.typeOf, lookedUpIsStr]

theorem tokenFieldsOk_ok_iff (t : Json) :
    tokenFieldsOk t = Except.ok true ↔ claimTokenOk t = true := by
  cases t with
  | jnull => simp [tokenFieldsOk, Json.getProp, claimTokenOk, Bind.bind, Except.bind,
      Pure.pure, Except.pure]
  | jundefined => simp [tokenFieldsOk, Json.getProp, claimTokenOk, Bind.bind, Except.bind,
      Pure.pure, Except.pure]
  | jbool b => simp [tokenFieldsOk, Json.getProp, Json.typeOf, claimTokenOk, Bind.bind,
      Except.bind, Pure.pure, Except.pure]
  | jnum n => simp [tokenFieldsOk, Json.getProp, Json.typeOf, claimTokenOk, Bind.bind,
      Except.bind, Pure.pure, Except.pure]
  | jstr s => simp [tokenFieldsOk, Json.getProp, Json.typeOf, claimTokenOk, Bind.bind,
      Except.bind, Pure.pure, Except.pure]
  | jarr es => simp [tokenFieldsOk, Json.getProp, Json.typeOf, claimTokenOk, Bind.bind,
      Except.bind, Pure.pure, Except.pure]
  | jobj fields =>
    simp only [tokenFieldsOk, Json.getProp, claimTokenOk, Bind.bind, Except.bind,
      Pure.pure, Except.pure, Bool.and_eq_true]
    cases hc : lookedUpIsNum (fields.lookup "chainId") <;>
      cases ha : lookedUpIsStr (fields.lookup "address") <;>
        cases hs : lookedUpIsStr (fields.lookup "symbol") <;>
          cases hn : lookedUpIsStr (fields.lookup "name") <;>
            cases hd : lookedUpIsNum (fields.lookup "decimals") <;>
              simp_all [typeOf_getD_num, typeOf_getD_str]

theorem tokensAllOk_ok_iff (ts : List Json) :
    tokensAllOk ts = Except.ok true ↔ ts.all claimTokenOk = true := by
  induction ts with
  | nil => simp [tokensAllOk]
  | cons t ts ih =>
    simp only [tokensAllOk, List.all_cons, Bool.and_eq_true, Bind.bind, Except.bind,
      Pure.pure, Except.pure]
    cases he : tokenFieldsOk t with
    | error e =>
      have hcl : claimTokenOk t ≠ true := by
        intro hcl
        have := (tokenFieldsOk_ok_iff t).mpr hcl
        rw [he] at this
        cases this
      simp [hcl]
    | ok b =>
      cases b with
      | false =>
        have hcl : claimTokenOk t ≠ true := by
          intro hcl
          have := (tokenFieldsOk_ok_iff t).mpr hcl
          rw [he] at this
          cases this
        simp [hcl]
      | true =>
        have hcl : claimTokenOk t = true := (tokenFieldsOk_ok_iff t).mp he
        simp [hcl, ih]

theorem validateTokenList_ok_iff (data : Json) :
    validateTokenList data = Except.ok true ↔ claimAcceptsTokenList data = true := by
  cases data with
  | jnull => simp [validateTokenList, Json.truthy, claimAcceptsTokenList,
      Bind.bind, Except.bind, Pure.pure, Except.pure]
  | jundefined => simp [validateTokenList, Json.truthy, claimAcceptsTokenList,
      Bind.bind, Except.bind, Pure.pure, Except.pure]
  | jbool b => cases b <;> simp [validateTokenList, Json.truthy, Json.typeOf,
      claimAcceptsTokenList, Bind.bind, Except.bind, Pure.pure, Except.pure]
  | jnum n => cases n <;> simp [validateTokenList, Json.truthy, Json.typeOf, JNum.falsy,
      claimAcceptsTokenList, Bind.bind, Except.bind, Pure.pure, Except.pure]
  | jstr s => simp [validateTokenList, Json.truthy, Json.typeOf,
      claimAcceptsTokenList, Bind.bind, Except.bind, Pure.pure, Except.pure]
  | jarr es => simp [validateTokenList, Json.truthy, Json.typeOf, Json.getProp,
      claimAcceptsTokenList, Bind.bind, Except.bind, Pure.pure, Except.pure]
  | jobj fields =>
    simp only [validateTokenList, Json.truthy, Json.typeOf, Json.getProp,
      claimAcceptsTokenList, Bind.bind, Except.bind, Pure.pure, Except.pure,
      Bool.not_true, Bool.false_or, Bool.and_eq_true]
    cases hn : fields.lookup "name" with
    | none => simp [hn]
    | some nj =>
      cases nj with
      | jstr s =>
        by_cases htrim : jsTrim s = ""
        · simp [hn, htrim]
        · cases ht : fields.lookup "tokens" with
          | none => simp [hn, htrim, ht]
          | some tj =>
            cases tj <;> simp [hn, htrim, ht, tokensAllOk_ok_iff]
      | jnull => simp [hn]
      | jundefined => simp [hn]
      | jbool b => simp [hn]
      | jnum n => simp [hn]
      | jarr es => simp [hn]
      | jobj f2 => simp [hn]

/-- C3: validateTokenList accepts a payload exactly when it is an object
whose name is a string non-empty after trimming, whose tokens field is an
array, and whose every token element has chainId and decimals of number
type and address, symbol and name of string type; and for an accepted
payload the fetch step reports tokenCount equal to the length of the
tokens array. -/
theorem validateTokenList_spec (data : Json) (url : String) (ts : List Json) :
    (validateTokenList data = Except.ok true ↔ claimAcceptsTokenList data = true)
    ∧ (validateTokenList data = Except.ok true →
        Json.getProp data "tokens" = Except.ok (Json.jarr ts) →
        tryOnce url (FetchResult.payload data)
          = Except.ok ⟨url, true, none, some ts.length⟩) := by
  refine ⟨validateTokenList_ok_iff data, ?_⟩
  intro hv ht
  simp [tryOnce, hv, tokensLength, ht]

/-- A well-formed token element used by the C3 witness. -/
def sampleToken (sym : String) : Json :=
  Json.jobj [("chainId", Json.jnum (JNum.val 1)), ("address", Json.jstr "0x1"),
    ("symbol", Json.jstr sym), ("name", Json.jstr sym),
    ("decimals", Json.jnum (JNum.val 18))]

/-- A well-formed two-token payload used by the C3 witness. -/
def samplePayload : Json :=
  Json.jobj [("name", Json.jstr "Vaulto"),
    ("tokens", Json.jarr [sampleToken "ETH", sampleToken "NVDAon"])]

/-- C3 witness: the two-token payload is accepted and counted as 2. -/
theorem validateTokenList_spec_witness :
    (validateTokenList samplePayload = Except.ok true
      ↔ claimAcceptsTokenList samplePayload = true)
    ∧ tryOnce "u" (FetchResult.payload samplePayload)
        = Except.ok ⟨"u", true, none, some 2⟩ :=
  ⟨(validateTokenList_spec samplePayload "u"
      [sampleToken "ETH", sampleToken "NVDAon"]).1,
   (validateTokenList_spec samplePayload "u"
      [sampleToken "ETH", sampleToken "NVDAon"]).2 (by rfl) (by rfl)⟩
